import Mathlib

/-!
Verification of the retail-analytics pipeline: a shallow embedding of the
batch ETL transformation (src/etl/glue_jobs/retail_data_etl.py), the
asynchronous Athena query executor (src/lambda/athena_query_executor.py and
src/lambda/athena-query-runner/lambda_function.py) and the template fallback
of the AI query processor (src/lambda/ai_query_processor.py), together with
theorems settling the specification claims about them.

Conventions of the embedding:
* A Spark dataframe row is a `Record` whose columns are all `Option`-typed,
  matching Spark null semantics; a dataframe is a `List Record`.
* Numeric columns are modelled as `ℚ`; timestamps as `Int` (epoch seconds).
* External collaborators (the engine's timestamp builtins, the Athena client,
  the language-model call) are parameters of the embedded functions.
-/

/-- A dataframe row of the retail ETL job
(`src/etl/glue_jobs/retail_data_etl.py`).  Every column is nullable
(`Option`); the derived columns (`data_quality_score`, `revenue_category`,
`transaction_timestamp`, `year`, `month`) are overwritten by the pipeline
stages that add them (`withColumn`). -/
structure Record where
  transaction_id : Option String
  customer_id : Option String
  product_id : Option String
  product_name : Option String
  category : Option String
  quantity : Option ℚ
  unit_price : Option ℚ
  total_amount : Option ℚ
  transaction_date : Option String
  store_id : Option String
  sales_rep_id : Option String
  payment_method : Option String
  data_quality_score : Option ℚ
  revenue_category : Option String
  transaction_timestamp : Option Int
  year : Option Int
  month : Option String
deriving DecidableEq, Repr

/-- External tabular-engine primitives used by `clean_and_standardize`
(Spark `to_timestamp`, `year`, `month`).  The dataframe engine is an
external collaborator, so its timestamp functions are parameters of the
embedding; `parseTs` returns `none` on unparseable input, exactly as
`to_timestamp` yields null. -/
structure Engine where
  parseTs : String → Option Int
  yearOf : Int → Int
  monthOf : Int → Nat

/-- Spark `when(col.isNull(), 1).otherwise(0)`. -/
def nullInd {α : Type} (o : Option α) : ℚ := if o.isNone then 1 else 0

/-- The `missing_fields_count` column of `data_quality_check`: the six
essential fields counted are transaction_id, customer_id, product_id,
quantity, unit_price and transaction_date. -/
def missing_fields_count (r : Record) : ℚ :=
  nullInd r.transaction_id + nullInd r.customer_id + nullInd r.product_id +
  nullInd r.quantity + nullInd r.unit_price + nullInd r.transaction_date

/-- `data_quality_check` (retail_data_etl.py, lines 22-40): adds
`data_quality_score = 1.0 - missing_fields_count / 6.0` and drops the
intermediate count column. -/
def data_quality_check (r : Record) : Record :=
  { r with data_quality_score := some (1 - missing_fields_count r / 6) }

/-- Spark `col.isin(vals)` used in a `when` chain: null never matches and
falls through to the next branch. -/
def isinS (c : Option String) (vals : List String) : Bool :=
  match c with
  | none => false
  | some s => vals.contains s

/-- The category-standardization `when` chain of `clean_and_standardize`
(retail_data_etl.py, lines 52-60). -/
def standardize_category (c : Option String) : String :=
  if isinS c ["Electronics", "ELECTRONICS", "electronics"] then "Electronics"
  else if isinS c ["Clothing", "CLOTHING", "clothing", "Apparel"] then "Clothing"
  else if isinS c ["Home", "HOME", "home", "Home & Garden"] then "Home"
  else if isinS c ["Sports", "SPORTS", "sports", "Sports & Outdoors"] then "Sports"
  else "Other"

/-- The payment-method-standardization `when` chain of
`clean_and_standardize` (retail_data_etl.py, lines 62-70). -/
def standardize_payment (p : Option String) : String :=
  if isinS p ["Credit Card", "CREDIT_CARD", "credit card"] then "Credit Card"
  else if isinS p ["Debit Card", "DEBIT_CARD", "debit card"] then "Debit Card"
  else if isinS p ["Cash", "CASH", "cash"] then "Cash"
  else if isinS p ["PayPal", "PAYPAL", "paypal"] then "PayPal"
  else "Other"

/-- The union of both alias tables: every value a `when ... isin` branch of
the category or payment-method chains recognizes. -/
def alias_table : List String :=
  ["Electronics", "ELECTRONICS", "electronics",
   "Clothing", "CLOTHING", "clothing", "Apparel",
   "Home", "HOME", "home", "Home & Garden",
   "Sports", "SPORTS", "sports", "Sports & Outdoors",
   "Credit Card", "CREDIT_CARD", "credit card",
   "Debit Card", "DEBIT_CARD", "debit card",
   "Cash", "CASH", "cash",
   "PayPal", "PAYPAL", "paypal"]

/-- Spark `col >= t` inside a `when` chain: a null comparison is not true,
so it falls through. -/
def geQ (a : Option ℚ) (t : ℚ) : Bool :=
  match a with
  | some x => t ≤ x
  | none => false

/-- The revenue-category `when` chain of `clean_and_standardize`
(retail_data_etl.py, lines 72-78): `>= 500` → High, `>= 100` → Medium,
otherwise Low, first matching branch wins. -/
def classify_revenue (a : Option ℚ) : String :=
  if geQ a 500 then "High" else if geQ a 100 then "Medium" else "Low"

/-- Spark `trim(regexp_replace(col, "[^a-zA-Z0-9 ]", ""))`: drop every
character that is not ASCII alphanumeric or a space, then trim. -/
def clean_product_name (s : String) : String :=
  (String.mk (s.toList.filter (fun c => c.isAlphanum || c = ' '))).trim

/-- Spark `format_string("%02d", month)`: two-digit zero-padded month. -/
def format02d (n : Nat) : String :=
  if n < 10 then "0" ++ toString n else toString n

/-- `clean_and_standardize` (retail_data_etl.py, lines 42-90) on one row:
clean product_name, canonicalize category and payment_method, add
revenue_category, parse transaction_timestamp from transaction_date, and
add the year/month partition columns. -/
def clean_and_standardize (eng : Engine) (r : Record) : Record :=
  let ts := r.transaction_date.bind eng.parseTs
  { r with
    product_name := r.product_name.map clean_product_name,
    category := some (standardize_category r.category),
    payment_method := some (standardize_payment r.payment_method),
    revenue_category := some (classify_revenue r.total_amount),
    transaction_timestamp := ts,
    year := ts.map eng.yearOf,
    month := ts.map (fun t => format02d (eng.monthOf t)) }

/-- First filter of `filter_valid_data` (retail_data_etl.py, lines 97-105):
all seven listed essential columns non-null. -/
def essential_fields_present (r : Record) : Bool :=
  r.transaction_id.isSome && r.customer_id.isSome && r.product_id.isSome &&
  r.quantity.isSome && r.unit_price.isSome && r.total_amount.isSome &&
  r.transaction_timestamp.isSome

/-- Spark `col > 0` inside a filter: a null comparison does not satisfy the
filter. -/
def gtZero (a : Option ℚ) : Bool :=
  match a with
  | some x => 0 < x
  | none => false

/-- Second filter of `filter_valid_data` (lines 108-112): positive
quantity, unit_price and total_amount. -/
def positive_amounts (r : Record) : Bool :=
  gtZero r.quantity && gtZero r.unit_price && gtZero r.total_amount

/-- Third filter of `filter_valid_data` (lines 115-118):
`transaction_timestamp <= current_date`, null not satisfying the filter. -/
def not_future (now : Int) (r : Record) : Bool :=
  match r.transaction_timestamp with
  | some t => t ≤ now
  | none => false

/-- `filter_valid_data` (retail_data_etl.py, lines 92-120): the three
successive `df.filter` calls. -/
def filter_valid_data (now : Int) (xs : List Record) : List Record :=
  ((xs.filter essential_fields_present).filter positive_amounts).filter (not_future now)

/-- The output row shape of `main`: the sixteen `final_columns` selected at
retail_data_etl.py lines 150-158 (dropping `transaction_date`). -/
structure FinalRecord where
  transaction_id : Option String
  customer_id : Option String
  product_id : Option String
  product_name : Option String
  category : Option String
  quantity : Option ℚ
  unit_price : Option ℚ
  total_amount : Option ℚ
  transaction_timestamp : Option Int
  store_id : Option String
  sales_rep_id : Option String
  payment_method : Option String
  revenue_category : Option String
  data_quality_score : Option ℚ
  year : Option Int
  month : Option String
deriving DecidableEq, Repr

/-- `df_filtered.select(*final_columns)` on one row. -/
def select_final (r : Record) : FinalRecord :=
  { transaction_id := r.transaction_id
    customer_id := r.customer_id
    product_id := r.product_id
    product_name := r.product_name
    category := r.category
    quantity := r.quantity
    unit_price := r.unit_price
    total_amount := r.total_amount
    transaction_timestamp := r.transaction_timestamp
    store_id := r.store_id
    sales_rep_id := r.sales_rep_id
    payment_method := r.payment_method
    revenue_category := r.revenue_category
    data_quality_score := r.data_quality_score
    year := r.year
    month := r.month }

/-- `main` (retail_data_etl.py, lines 122-175) as a batch transformation:
data_quality_check, then clean_and_standardize, then filter_valid_data,
then projection to the final columns.  There is no deduplication step. -/
def etl_main (eng : Engine) (now : Int) (xs : List Record) : List FinalRecord :=
  (filter_valid_data now ((xs.map data_quality_check).map (clean_and_standardize eng))).map select_final

/-- A cell of an Athena result row: `VarCharValue` may be absent. -/
abbrev Cell : Type := Option String

/-- One row of an Athena result page (`row['Data']`). -/
abbrev Row : Type := List Cell

/-- One page yielded by the results paginator (`response['ResultSet']['Rows']`). -/
abbrev Page : Type := List Row

/-- `[col.get('VarCharValue', '') for col in row['Data']]`. -/
def extract_row (r : Row) : List String :=
  r.map (fun c => c.getD "")

/-- The page loop of `get_query_results`
(athena-query-runner/lambda_function.py, lines 149-169): the Boolean is the
`first_page` flag; on the first page the first (header) row is skipped, on
every later page all rows are kept. -/
def runner_collect : Bool → List Page → List (List String)
  | _, [] => []
  | true, p :: rest => (p.drop 1).map extract_row ++ runner_collect false rest
  | false, p :: rest => p.map extract_row ++ runner_collect false rest

/-- The result dictionary built by `get_query_results`
(athena-query-runner/lambda_function.py, lines 143-171): column names from
the first row of the first page, data rows, a running row count, and the
error text set only by the surrounding `except`. -/
structure ResultsPayload where
  columns : List String
  rows : List (List String)
  row_count : Nat
  error : Option String
deriving DecidableEq, Repr

/-- Pure core of the runner's `get_query_results` on the pages the
paginator yields. -/
def get_query_results (pages : List Page) : ResultsPayload :=
  let rows := runner_collect true pages
  { columns :=
      match pages with
      | [] => []
      | p :: _ =>
        match p with
        | [] => []
        | hd :: _ => extract_row hd
    rows := rows
    row_count := rows.length
    error := none }

/-- `row_data` of `AthenaQueryExecutor._get_query_results`
(athena_query_executor.py, lines 100-102 and 106-108): a row becomes a
column-name/value mapping, joined by position. -/
def exec_row (columns : List String) (r : Row) : List (String × String) :=
  columns.zip (extract_row r)

/-- The page loop of `AthenaQueryExecutor._get_query_results`
(athena_query_executor.py, lines 87-113).  The first branch fires while
`results` is still empty and the page has rows: it takes the column names
from the page's first row and keeps the rest; the `elif results:` branch
keeps every row of a page once `results` is non-empty. -/
def exec_collect (columns : List String) (acc : List (List (String × String))) :
    List Page → List (List (String × String))
  | [] => acc
  | p :: rest =>
    if acc.isEmpty then
      match p with
      | [] => exec_collect columns acc rest
      | hd :: tl =>
        let cols := extract_row hd
        exec_collect cols (acc ++ tl.map (exec_row cols)) rest
    else exec_collect columns (acc ++ p.map (exec_row columns)) rest

/-- `AthenaQueryExecutor._get_query_results` on the pages the service
returns. -/
def exec_get_query_results (pages : List Page) : List (List (String × String)) :=
  exec_collect [] [] pages

/-- The `Status` part of a `get_query_execution` response: `State` and the
optional `StateChangeReason`. -/
structure QueryStatus where
  state : String
  state_change_reason : Option String
deriving DecidableEq, Repr

/-- The Athena client as seen by this code: submission (with the values
this code forwards, `None` included), the `n`-th `get_query_execution`
response, and the paginated results.  `Except.error` is a raised
botocore/service exception. -/
structure AthenaClient where
  start_query_execution : Option String → Option String → Option String → String → Except String String
  get_query_execution : Nat → Except String QueryStatus
  get_query_results_pages : Except String (List Page)

/-- One observable call to the Athena service, recorded in submission
order; used to state that validation happens before any service call. -/
inductive AthenaCall where
  | startQE (query database output_location : Option String) (workgroup : String)
  | getQE (n : Nat)
  | getQR
deriving DecidableEq, Repr

/-- `status in ['SUCCEEDED', 'FAILED', 'CANCELLED']`
(athena_query_executor.py, line 73). -/
def terminal_state (s : String) : Bool :=
  s = "SUCCEEDED" || s = "FAILED" || s = "CANCELLED"

/-- The `while time.time() - start_time < max_wait_time` loop of
`AthenaQueryExecutor._wait_for_query_completion` (athena_query_executor.py,
lines 69-78), with wall-clock time modelled in 5-second sleep ticks: `n` is
the index of the next poll, the fuel starts at `max_wait_time / 5 = 60`.
Returns the terminal state, `"TIMEOUT"` once the deadline is reached, or
the exception a poll raised, together with the trace of service calls. -/
def poll_loop (client : AthenaClient) : Nat → Nat → Except String String × List AthenaCall
  | _, 0 => (.ok "TIMEOUT", [])
  | n, fuel + 1 =>
    match client.get_query_execution n with
    | .error e => (.error e, [.getQE n])
    | .ok st =>
      if terminal_state st.state then (.ok st.state, [.getQE n])
      else
        let (r, tr) := poll_loop client (n + 1) fuel
        (r, .getQE n :: tr)

/-- `AthenaQueryExecutor._wait_for_query_completion` with the default
`max_wait_time = 300` seconds and 5-second sleeps: at most 60 polls. -/
def wait_for_query_completion (client : AthenaClient) : Except String String × List AthenaCall :=
  poll_loop client 0 60

/-- `AthenaQueryExecutor._get_query_error` (athena_query_executor.py,
lines 117-125): one more `get_query_execution` call (the `n`-th), the
`StateChangeReason` defaulted to `'Unknown error'`, and its own `except`
mapping any exception to `'Unable to retrieve error details'`. -/
def get_query_error (client : AthenaClient) (n : Nat) : String :=
  match client.get_query_execution n with
  | .ok st => st.state_change_reason.getD "Unknown error"
  | .error _ => "Unable to retrieve error details"

/-- The dictionary `AthenaQueryExecutor.execute_query` returns. -/
structure ExecOutcome where
  execution_id : String
  status : String
  results : Option (List (List (String × String)))
  error : Option String
deriving DecidableEq, Repr

/-- `AthenaQueryExecutor.execute_query` (athena_query_executor.py,
lines 17-61) with its call trace.  `local_uuid` is the
`str(uuid.uuid4())` generated before the `try`; any exception raised by
submission, polling or result retrieval lands in the `except` branch, which
returns status `'FAILED'` with the local uuid.  No parameter validation
happens: the submission call is always issued first. -/
def execute_query (client : AthenaClient) (local_uuid : String)
    (query database output_location : Option String) (work_group : String) :
    ExecOutcome × List AthenaCall :=
  let sub : AthenaCall := .startQE query database output_location work_group
  match client.start_query_execution query database output_location work_group with
  | .error e =>
    ({ execution_id := local_uuid, status := "FAILED", results := none, error := some e }, [sub])
  | .ok eid =>
    let (ws, wtr) := wait_for_query_completion client
    match ws with
    | .error e =>
      ({ execution_id := local_uuid, status := "FAILED", results := none, error := some e },
       sub :: wtr)
    | .ok status =>
      if status = "SUCCEEDED" then
        match client.get_query_results_pages with
        | .error e =>
          ({ execution_id := local_uuid, status := "FAILED", results := none, error := some e },
           sub :: wtr ++ [.getQR])
        | .ok pages =>
          ({ execution_id := eid, status := "SUCCEEDED",
             results := some (exec_get_query_results pages), error := none },
           sub :: wtr ++ [.getQR])
      else
        ({ execution_id := eid, status := status, results := none,
           error := some (get_query_error client wtr.length) },
         sub :: wtr ++ [.getQE wtr.length])

/-- The event of the athena-query-runner handler: `event.get(...)` yields
`none` for an absent key. -/
structure RunnerEvent where
  sql_query : Option String
  database : Option String
  output_location : Option String
  workgroup : Option String
deriving DecidableEq, Repr

/-- Python truthiness of an `event.get(...)` value as used by
`if not all([sql_query, database, output_location])`: `None` and the empty
string are falsy. -/
def truthy (o : Option String) : Bool :=
  match o with
  | none => false
  | some s => !s.isEmpty

/-- The HTTP-style response of the athena-query-runner handler, keeping the
body fields the claims are about (the metadata statistics the success body
also carries come verbatim from the service and are not modelled). -/
structure RunnerResponse where
  statusCode : Nat
  success : Bool
  error : Option String
  query_execution_id : Option String
  results : Option ResultsPayload
deriving DecidableEq, Repr

/-- The runner's `get_query_results` with its surrounding `try/except`
(athena-query-runner/lambda_function.py, lines 132-180): an exception while
paginating yields an empty payload carrying the error text. -/
def runner_get_query_results (client : AthenaClient) : ResultsPayload :=
  match client.get_query_results_pages with
  | .ok pages => get_query_results pages
  | .error e => { columns := [], rows := [], row_count := 0, error := some e }

/-- The `while elapsed_time < max_wait_time` loop of the runner handler
(athena-query-runner/lambda_function.py, lines 63-109), time modelled in
5-second sleep ticks (`max_wait_time = 300`, `wait_interval = 5`, so 60
iterations): SUCCEEDED → 200 with assembled results, FAILED/CANCELLED →
400 with the service reason, deadline reached → 408, a raised exception →
the outer `except` → 500. -/
def runner_loop (client : AthenaClient) (qid : String) :
    Nat → Nat → RunnerResponse × List AthenaCall
  | _, 0 =>
    ({ statusCode := 408, success := false, error := some "Query execution timed out",
       query_execution_id := some qid, results := none }, [])
  | n, fuel + 1 =>
    match client.get_query_execution n with
    | .error e =>
      ({ statusCode := 500, success := false, error := some e,
         query_execution_id := none, results := none }, [.getQE n])
    | .ok st =>
      if st.state = "SUCCEEDED" then
        ({ statusCode := 200, success := true, error := none,
           query_execution_id := some qid,
           results := some (runner_get_query_results client) },
         [.getQE n, .getQR])
      else if st.state = "FAILED" || st.state = "CANCELLED" then
        ({ statusCode := 400, success := false,
           error := some ("Query failed: " ++ st.state_change_reason.getD "Unknown error"),
           query_execution_id := some qid, results := none }, [.getQE n])
      else
        let (r, tr) := runner_loop client qid (n + 1) fuel
        (r, .getQE n :: tr)

/-- `lambda_handler` of athena-query-runner/lambda_function.py
(lines 21-129) with its call trace: extract parameters, validate (the
raised `ValueError` is caught by the handler's own `except`, giving a 500
response with no service call made), submit, poll up to the deadline. -/
def runner_handler (client : AthenaClient) (event : RunnerEvent) :
    RunnerResponse × List AthenaCall :=
  let workgroup := event.workgroup.getD "primary"
  if !(truthy event.sql_query && truthy event.database && truthy event.output_location) then
    ({ statusCode := 500, success := false,
       error := some "Missing required parameters: sql_query, database, output_location",
       query_execution_id := none, results := none }, [])
  else
    match client.start_query_execution event.sql_query event.database event.output_location workgroup with
    | .error e =>
      ({ statusCode := 500, success := false, error := some e,
         query_execution_id := none, results := none },
       [.startQE event.sql_query event.database event.output_location workgroup])
    | .ok qid =>
      let (r, tr) := runner_loop client qid 0 60
      (r, .startQE event.sql_query event.database event.output_location workgroup :: tr)

/-- Occurrence of one character list inside another, at any position. -/
def subList (needle : List Char) : List Char → Bool
  | [] => needle.isEmpty
  | c :: rest => needle.isPrefixOf (c :: rest) || subList needle rest

/-- `'needle' in haystack` on Python strings. -/
def containsSub (haystack needle : String) : Bool :=
  subList needle.toList haystack.toList

/-- The sales-by-category template of `_template_based_query_generation`
(ai_query_processor.py, lines 106-114); the SQL text is kept with
normalized whitespace. -/
def sales_by_category_template : String :=
  "SELECT category, SUM(total_amount) as total_sales, COUNT(*) as transaction_count FROM cleaned_sales_data GROUP BY category ORDER BY total_sales DESC LIMIT 10"

/-- The top-products template (ai_query_processor.py, lines 116-124). -/
def top_products_template : String :=
  "SELECT product_name, SUM(total_amount) as total_revenue, SUM(quantity) as total_sold FROM cleaned_sales_data GROUP BY product_name ORDER BY total_revenue DESC LIMIT 10"

/-- The monthly-revenue template (ai_query_processor.py, lines 126-133). -/
def monthly_revenue_template : String :=
  "SELECT year, month, SUM(total_amount) as monthly_revenue FROM cleaned_sales_data GROUP BY year, month ORDER BY year DESC, month DESC LIMIT 12"

/-- The default overall-summary template (ai_query_processor.py,
lines 135-140). -/
def overall_summary_template : String :=
  "SELECT COUNT(*) as total_transactions, SUM(total_amount) as total_revenue, AVG(total_amount) as avg_transaction_value FROM cleaned_sales_data"

/-- Python `str.lower()` on the request text, written at the
character-list level (case folding per character). -/
def lowerStr (s : String) : String := String.mk (s.toList.map Char.toLower)

/-- `AIQueryProcessor._template_based_query_generation`
(ai_query_processor.py, lines 99-140): lower-case the request, then a
first-match keyword chain. -/
def template_based_query_generation (user_request : String) : String :=
  let l := lowerStr user_request
  if containsSub l "sales" && containsSub l "by category" then sales_by_category_template
  else if containsSub l "top products" then top_products_template
  else if containsSub l "monthly revenue" then monthly_revenue_template
  else overall_summary_template

/-- `AIQueryProcessor.natural_language_to_sql` (ai_query_processor.py,
lines 22-61): `llm` is the outcome of the language-model call (OpenAI, or
the Bedrock path whose own `except` at lines 96-97 falls back the same
way); any exception lands in the template fallback and is never re-raised. -/
def natural_language_to_sql (llm : Except String String) (user_request : String) : String :=
  match llm with
  | .ok sql => sql
  | .error _ => template_based_query_generation user_request

/-- The number of nulls among the six essential fields that
`data_quality_check` scores, stated as a plain count for the quality-score
claim. -/
def num_null_essentials (r : Record) : ℕ :=
  [r.transaction_id.isNone, r.customer_id.isNone, r.product_id.isNone,
   r.quantity.isNone, r.unit_price.isNone, r.transaction_date.isNone].count true

lemma missing_fields_count_eq_num_null (r : Record) :
    missing_fields_count r = (num_null_essentials r : ℚ) := by
  rcases r with ⟨tid, cid, pid, _, _, q, up, _, td, _, _, _, _, _, _, _, _⟩
  cases tid <;> cases cid <;> cases pid <;> cases q <;> cases up <;> cases td <;>
    simp [missing_fields_count, num_null_essentials, nullInd, List.count_cons] <;> norm_num

lemma num_null_essentials_le_six (r : Record) : num_null_essentials r ≤ 6 := by
  have h := List.count_le_length (a := true)
    (l := [r.transaction_id.isNone, r.customer_id.isNone, r.product_id.isNone,
           r.quantity.isNone, r.unit_price.isNone, r.transaction_date.isNone])
  simpa [num_null_essentials] using h

/-- C6: the data-quality score equals `1 - (number of nulls among the six
essential fields)/6`, hence lies in `[0, 1]`; zero missing essential fields
score exactly `1`, and three missing of the six score exactly `1/2`. -/
theorem C6_quality_score (r : Record) :
    (data_quality_check r).data_quality_score
        = some (1 - (num_null_essentials r : ℚ) / 6) ∧
    (0 : ℚ) ≤ 1 - (num_null_essentials r : ℚ) / 6 ∧
    1 - (num_null_essentials r : ℚ) / 6 ≤ 1 ∧
    (num_null_essentials r = 0 →
      (data_quality_check r).data_quality_score = some 1) ∧
    (num_null_essentials r = 3 →
      (data_quality_check r).data_quality_score = some (1 / 2)) := by
  have hm := missing_fields_count_eq_num_null r
  have hle := num_null_essentials_le_six r
  have hle6 : (num_null_essentials r : ℚ) ≤ 6 := by exact_mod_cast hle
  have hge0 : (0 : ℚ) ≤ (num_null_essentials r : ℚ) := by positivity
  refine ⟨by simp [data_quality_check, hm], by linarith, by linarith, ?_, ?_⟩
  · intro h
    simp [data_quality_check, hm, h]
  · intro h
    simp [data_quality_check, hm, h]
    norm_num

/-- A concrete record with one of the six essential fields null, used to
instantiate the quality-score theorem. -/
def qrec : Record :=
  { transaction_id := some "t", customer_id := some "c", product_id := some "p"
    product_name := none, category := none, quantity := none
    unit_price := some 1, total_amount := none, transaction_date := some "d"
    store_id := none, sales_rep_id := none, payment_method := none
    data_quality_score := none, revenue_category := none
    transaction_timestamp := none, year := none, month := none }

/-- Witness for C6 at a concrete record whose `quantity` is the only null
essential field: the score is `1 - 1/6`. -/
theorem C6_quality_score_witness :
    (data_quality_check qrec).data_quality_score = some (1 - (1 : ℚ) / 6) ∧
    num_null_essentials qrec = 1 := by
  have h := C6_quality_score qrec
  have h2 : num_null_essentials qrec = 1 := by decide
  refine ⟨?_, h2⟩
  rw [h.1, h2]
  norm_num

/-- C7: the revenue classification of `clean_and_standardize`, stated as
the top-down chain on `total_amount`: `>= 500` gives High, `>= 100` and
`< 500` gives Medium, `< 100` gives Low; at the boundaries `500` is High,
`499.99` and `100` are Medium, and `99.99` is Low; and every cleaned record
carries exactly this classification of its `total_amount`. -/
theorem C7_classify_revenue (a : ℚ) :
    (500 ≤ a → classify_revenue (some a) = "High") ∧
    (100 ≤ a → a < 500 → classify_revenue (some a) = "Medium") ∧
    (a < 100 → classify_revenue (some a) = "Low") ∧
    classify_revenue (some 500) = "High" ∧
    classify_revenue (some (49999 / 100)) = "Medium" ∧
    classify_revenue (some 100) = "Medium" ∧
    classify_revenue (some (9999 / 100)) = "Low" ∧
    (∀ (eng : Engine) (r : Record),
      (clean_and_standardize eng r).revenue_category
        = some (classify_revenue r.total_amount)) := by
  refine ⟨?_, ?_, ?_, ?_, ?_, ?_, ?_, fun eng r => rfl⟩
  · intro h
    simp [classify_revenue, geQ, h]
  · intro h1 h2
    have : ¬ (500 : ℚ) ≤ a := by linarith
    simp [classify_revenue, geQ, h1, this]
  · intro h
    have h5 : ¬ (500 : ℚ) ≤ a := by linarith
    have h1 : ¬ (100 : ℚ) ≤ a := by linarith
    simp [classify_revenue, geQ, h5, h1]
  · norm_num [classify_revenue, geQ]
  · norm_num [classify_revenue, geQ]
  · norm_num [classify_revenue, geQ]
  · norm_num [classify_revenue, geQ]

/-- Witness for C7 at `a = 600`. -/
theorem C7_classify_revenue_witness :
    classify_revenue (some (600 : ℚ)) = "High" := by
  exact (C7_classify_revenue 600).1 (by norm_num)

lemma standardize_category_vals (c : Option String) :
    standardize_category c = "Electronics" ∨ standardize_category c = "Clothing" ∨
    standardize_category c = "Home" ∨ standardize_category c = "Sports" ∨
    standardize_category c = "Other" := by
  unfold standardize_category
  split_ifs <;> simp

lemma standardize_category_idem (c : Option String) :
    standardize_category (some (standardize_category c)) = standardize_category c := by
  rcases standardize_category_vals c with h | h | h | h | h <;> rw [h] <;> decide

lemma standardize_payment_vals (p : Option String) :
    standardize_payment p = "Credit Card" ∨ standardize_payment p = "Debit Card" ∨
    standardize_payment p = "Cash" ∨ standardize_payment p = "PayPal" ∨
    standardize_payment p = "Other" := by
  unfold standardize_payment
  split_ifs <;> simp

lemma standardize_payment_idem (p : Option String) :
    standardize_payment (some (standardize_payment p)) = standardize_payment p := by
  rcases standardize_payment_vals p with h | h | h | h | h <;> rw [h] <;> decide

lemma isinS_false_of_not_mem {c : String} {vals : List String} (h : c ∉ vals) :
    isinS (some c) vals = false := by
  simp [isinS]
  exact h

/-- C5: canonicalization of category and payment_method in
`clean_and_standardize` is total and idempotent: applying the cleaning step
twice leaves both canonicalized fields as after one application, both
fields always come out non-null (no record fails), any value outside the
alias table (null included) maps to `"Other"`, and the step never drops a
record (it maps the batch one-to-one). -/
theorem C5_canonicalize (eng : Engine) (r : Record) (xs : List Record) (v : String)
    (hv : v ∉ alias_table) :
    (clean_and_standardize eng (clean_and_standardize eng r)).category
        = (clean_and_standardize eng r).category ∧
    (clean_and_standardize eng (clean_and_standardize eng r)).payment_method
        = (clean_and_standardize eng r).payment_method ∧
    (clean_and_standardize eng r).category = some (standardize_category r.category) ∧
    (clean_and_standardize eng r).payment_method = some (standardize_payment r.payment_method) ∧
    standardize_category (some v) = "Other" ∧
    standardize_payment (some v) = "Other" ∧
    standardize_category none = "Other" ∧
    standardize_payment none = "Other" ∧
    (xs.map (clean_and_standardize eng)).length = xs.length := by
  have hvs : ∀ vals : List String, (∀ x ∈ vals, x ∈ alias_table) → isinS (some v) vals = false := by
    intro vals hsub
    exact isinS_false_of_not_mem (fun hm => hv (hsub v hm))
  refine ⟨?_, ?_, rfl, rfl, ?_, ?_, rfl, rfl, xs.length_map _⟩
  · simp [clean_and_standardize, standardize_category_idem]
  · simp [clean_and_standardize, standardize_payment_idem]
  · unfold standardize_category
    rw [hvs _ (by decide), hvs _ (by decide), hvs _ (by decide), hvs _ (by decide)]
    simp
  · unfold standardize_payment
    rw [hvs _ (by decide), hvs _ (by decide), hvs _ (by decide), hvs _ (by decide)]
    simp

/-- Witness for C5 at the unrecognized value `"Groceries"`. -/
theorem C5_canonicalize_witness :
    standardize_category (some "Groceries") = "Other" ∧
    standardize_payment (some "Groceries") = "Other" := by
  have h := C5_canonicalize
    { parseTs := fun _ => none, yearOf := fun _ => 0, monthOf := fun _ => 0 }
    qrec [] "Groceries" (by decide)
  exact ⟨h.2.2.2.2.1, h.2.2.2.2.2.1⟩

/-- C8: `filter_valid_data` is a pure subset operation: the output is a
sublist of the input (rows only removed, order kept, no row mutated), and
every surviving record is a record of the input satisfying all three filter
predicates. -/
theorem C8_filter_valid_subset (now : Int) (xs : List Record) :
    (filter_valid_data now xs).Sublist xs ∧
    (∀ r ∈ filter_valid_data now xs,
      r ∈ xs ∧ essential_fields_present r = true ∧ positive_amounts r = true ∧
        not_future now r = true) := by
  constructor
  · exact ((List.filter_sublist _).trans (List.filter_sublist _)).trans (List.filter_sublist _)
  · intro r hr
    unfold filter_valid_data at hr
    have h3 := List.mem_filter.mp hr
    have h2 := List.mem_filter.mp h3.1
    have h1 := List.mem_filter.mp h2.1
    exact ⟨h1.1, h1.2, h2.2, h3.2⟩

/-- A concrete record that passes every validity filter. -/
def vrec : Record :=
  { transaction_id := some "t1", customer_id := some "c1", product_id := some "p1"
    product_name := some "Widget", category := some "Electronics", quantity := some 2
    unit_price := some 10, total_amount := some 20, transaction_date := some "2024-05-01 00:00:00"
    store_id := some "s1", sales_rep_id := some "s2", payment_method := some "Cash"
    data_quality_score := some 1, revenue_category := some "Low"
    transaction_timestamp := some 100, year := some 2024, month := some "05" }

/-- Witness for C8: the valid record survives the filter and is returned
unchanged as a member of the input batch. -/
theorem C8_filter_valid_subset_witness :
    vrec ∈ [vrec] ∧ essential_fields_present vrec = true ∧
      positive_amounts vrec = true ∧ not_future 1000 vrec = true :=
  (C8_filter_valid_subset 1000 [vrec]).2 vrec (by decide)

lemma runner_collect_false (ps : List Page) :
    runner_collect false ps = ps.flatten.map extract_row := by
  induction ps with
  | nil => rfl
  | cons p rest ih => simp [runner_collect, ih]

lemma exec_collect_of_ne_nil (cols : List String) (acc : List (List (String × String)))
    (ps : List Page) (h : acc ≠ []) :
    exec_collect cols acc ps = acc ++ ps.flatten.map (exec_row cols) := by
  induction ps generalizing acc with
  | nil => simp [exec_collect]
  | cons p rest ih =>
    have hne : acc.isEmpty = false := by simpa [List.isEmpty_iff] using h
    have hacc : acc ++ p.map (exec_row cols) ≠ [] := by simp [h]
    simp [exec_collect, hne, ih _ hacc]

/-- C2: result assembly over a paginated stream whose first page is a
header row followed by data rows.  The runner's `get_query_results` returns
exactly the first page's data rows followed by every row of every later
page, in order, with the row count matching and the column names taken from
the header; `AthenaQueryExecutor._get_query_results` assembles the same
rows in the same order, each zipped with the header's column names. -/
theorem C2_pagination (hd : Row) (data1 : List Row) (rest : List Page)
    (h : data1 ≠ []) :
    (get_query_results ((hd :: data1) :: rest)).rows
        = (data1 ++ rest.flatten).map extract_row ∧
    (get_query_results ((hd :: data1) :: rest)).row_count
        = data1.length + rest.flatten.length ∧
    (get_query_results ((hd :: data1) :: rest)).columns = extract_row hd ∧
    exec_get_query_results ((hd :: data1) :: rest)
        = (data1 ++ rest.flatten).map (exec_row (extract_row hd)) := by
  have hrows : (get_query_results ((hd :: data1) :: rest)).rows
      = (data1 ++ rest.flatten).map extract_row := by
    simp [get_query_results, runner_collect, runner_collect_false]
  refine ⟨hrows, ?_, rfl, ?_⟩
  · have : (get_query_results ((hd :: data1) :: rest)).row_count
        = (get_query_results ((hd :: data1) :: rest)).rows.length := rfl
    rw [this, hrows, List.length_map, List.length_append]
  · have hacc : data1.map (exec_row (extract_row hd)) ≠ [] := by
      simpa using h
    simp [exec_get_query_results, exec_collect, exec_collect_of_ne_nil _ _ _ hacc]

/-- Witness for C2: the spec's two-page example, 1 header + 2 data rows on
page 1 and 3 data rows on page 2, yields exactly 5 rows in original
order. -/
theorem C2_pagination_witness :
    (get_query_results
        [[[some "c1", some "c2"], [some "a", some "b"], [some "c", some "d"]],
         [[some "e", some "f"], [some "g", some "h"], [some "i", some "j"]]]).row_count = 5 ∧
    (get_query_results
        [[[some "c1", some "c2"], [some "a", some "b"], [some "c", some "d"]],
         [[some "e", some "f"], [some "g", some "h"], [some "i", some "j"]]]).rows
      = [["a", "b"], ["c", "d"], ["e", "f"], ["g", "h"], ["i", "j"]] ∧
    exec_get_query_results
        [[[some "c1", some "c2"], [some "a", some "b"], [some "c", some "d"]],
         [[some "e", some "f"], [some "g", some "h"], [some "i", some "j"]]]
      = [[("c1", "a"), ("c2", "b")], [("c1", "c"), ("c2", "d")], [("c1", "e"), ("c2", "f")],
         [("c1", "g"), ("c2", "h")], [("c1", "i"), ("c2", "j")]] := by
  have h := C2_pagination [some "c1", some "c2"]
      [[some "a", some "b"], [some "c", some "d"]]
      [[[some "e", some "f"], [some "g", some "h"], [some "i", some "j"]]]
      (by decide)
  refine ⟨?_, ?_, ?_⟩
  · rw [h.2.1]; rfl
  · rw [h.1]; rfl
  · rw [h.2.2.2]; rfl

/-- C9: when the language-model call fails, SQL generation returns the
template fallback (a total function of the request text, so no exception
reaches the caller), and the template is chosen by the first matching
keyword in source order on the lower-cased request: `sales` together with
`by category`, then `top products`, then `monthly revenue`, else the
overall-summary default. -/
theorem C9_template_fallback (err user_request : String) :
    natural_language_to_sql (.error err) user_request
        = template_based_query_generation user_request ∧
    ((containsSub (lowerStr user_request) "sales"
        && containsSub (lowerStr user_request) "by category") = true →
      template_based_query_generation user_request = sales_by_category_template) ∧
    ((containsSub (lowerStr user_request) "sales"
        && containsSub (lowerStr user_request) "by category") = false →
      containsSub (lowerStr user_request) "top products" = true →
      template_based_query_generation user_request = top_products_template) ∧
    ((containsSub (lowerStr user_request) "sales"
        && containsSub (lowerStr user_request) "by category") = false →
      containsSub (lowerStr user_request) "top products" = false →
      containsSub (lowerStr user_request) "monthly revenue" = true →
      template_based_query_generation user_request = monthly_revenue_template) ∧
    ((containsSub (lowerStr user_request) "sales"
        && containsSub (lowerStr user_request) "by category") = false →
      containsSub (lowerStr user_request) "top products" = false →
      containsSub (lowerStr user_request) "monthly revenue" = false →
      template_based_query_generation user_request = overall_summary_template) := by
  refine ⟨rfl, ?_, ?_, ?_, ?_⟩
  · intro h1
    simp [template_based_query_generation, h1]
  · intro h1 h2
    simp [template_based_query_generation, h1, h2]
  · intro h1 h2 h3
    simp [template_based_query_generation, h1, h2, h3]
  · intro h1 h2 h3
    simp [template_based_query_generation, h1, h2, h3]

/-- Witness for C9: with the model unavailable, a `top products` request
(matching no earlier keyword) selects the top-products template. -/
theorem C9_template_fallback_witness :
    natural_language_to_sql (.error "service unavailable") "Show Top Products"
      = top_products_template := by
  have h := C9_template_fallback "service unavailable" "Show Top Products"
  rw [h.1]
  exact h.2.2.1 (by decide) (by decide)

lemma poll_loop_nonterminal (client : AthenaClient)
    (hc : ∀ m, ∃ st, client.get_query_execution m = .ok st ∧ terminal_state st.state = false) :
    ∀ fuel n, (poll_loop client n fuel).1 = .ok "TIMEOUT" ∧
      ((poll_loop client n fuel).2).length = fuel := by
  intro fuel
  induction fuel with
  | zero => intro n; exact ⟨rfl, rfl⟩
  | succ f ih =>
    intro n
    obtain ⟨st, hok, hterm⟩ := hc n
    have h := ih (n + 1)
    simp [poll_loop, hok, hterm, h.1, h.2]

lemma runner_loop_nonterminal (client : AthenaClient) (qid : String)
    (hc : ∀ m, ∃ st, client.get_query_execution m = .ok st ∧ terminal_state st.state = false) :
    ∀ fuel n, (runner_loop client qid n fuel).1
      = { statusCode := 408, success := false, error := some "Query execution timed out",
          query_execution_id := some qid, results := none } ∧
      ((runner_loop client qid n fuel).2).length = fuel := by
  intro fuel
  induction fuel with
  | zero => intro n; exact ⟨rfl, rfl⟩
  | succ f ih =>
    intro n
    obtain ⟨st, hok, hterm⟩ := hc n
    obtain ⟨⟨hs1, hs2⟩, hs3⟩ :
        (¬st.state = "SUCCEEDED" ∧ ¬st.state = "FAILED") ∧ ¬st.state = "CANCELLED" := by
      simpa [terminal_state] using hterm
    have h := ih (n + 1)
    simp [runner_loop, hok, hs1, hs2, hs3, h.1, h.2]

/-- C4: if every poll answers with a non-terminal state, the executor's
wait loop stops with `"TIMEOUT"` after exactly 60 polls (the 300-second
deadline at 5-second intervals), `execute_query` reports that timeout
outcome with the execution identifier obtained at submission, and the
runner handler's loop likewise answers 408 carrying the submission
identifier. -/
theorem C4_timeout (client : AthenaClient) (uuid eid : String)
    (q db out : Option String) (wg : String)
    (hstart : client.start_query_execution q db out wg = .ok eid)
    (hc : ∀ m, ∃ st, client.get_query_execution m = .ok st ∧ terminal_state st.state = false) :
    (wait_for_query_completion client).1 = .ok "TIMEOUT" ∧
    ((wait_for_query_completion client).2).length = 60 ∧
    (execute_query client uuid q db out wg).1.status = "TIMEOUT" ∧
    (execute_query client uuid q db out wg).1.execution_id = eid ∧
    ∀ qid, (runner_loop client qid 0 60).1
      = { statusCode := 408, success := false, error := some "Query execution timed out",
          query_execution_id := some qid, results := none } := by
  have hpoll : (wait_for_query_completion client).1 = .ok "TIMEOUT" ∧
      ((wait_for_query_completion client).2).length = 60 :=
    poll_loop_nonterminal client hc 60 0
  rcases hpair : wait_for_query_completion client with ⟨ws, wtr⟩
  rw [hpair] at hpoll
  have h1 : ws = .ok "TIMEOUT" := hpoll.1
  refine ⟨hpoll.1, hpoll.2, ?_, ?_,
    fun qid => (runner_loop_nonterminal client qid hc 60 0).1⟩
  · unfold execute_query
    rw [hstart, hpair, h1]
    simp
  · unfold execute_query
    rw [hstart, hpair, h1]
    simp

/-- A concrete Athena client whose query never leaves RUNNING. -/
def running_client : AthenaClient :=
  { start_query_execution := fun _ _ _ _ => .ok "exec-1"
    get_query_execution := fun _ => .ok { state := "RUNNING", state_change_reason := none }
    get_query_results_pages := .ok [] }

/-- Witness for C4: against the always-RUNNING client, the executor
answers TIMEOUT with the submission id `"exec-1"`, not the local uuid. -/
theorem C4_timeout_witness :
    (execute_query running_client "local-uuid" (some "SELECT 1") (some "db")
        (some "s3://out") "primary").1.status = "TIMEOUT" ∧
    (execute_query running_client "local-uuid" (some "SELECT 1") (some "db")
        (some "s3://out") "primary").1.execution_id = "exec-1" := by
  have h := C4_timeout running_client "local-uuid" "exec-1" (some "SELECT 1") (some "db")
    (some "s3://out") "primary" rfl
    (fun m => ⟨{ state := "RUNNING", state_change_reason := none }, rfl, rfl⟩)
  exact ⟨h.2.2.1, h.2.2.2.1⟩

/-- C3 (amended): the athena-query-runner handler validates the required
parameters first — on a missing or empty `sql_query`, `database` or
`output_location` the raised `ValueError` produces the 500 error response
and no service call whatsoever is made; `AthenaQueryExecutor.execute_query`
however performs no such validation: its very first observable action is
always the submission request, whatever parameters (absent ones included)
it was given. -/
theorem C3_validation (client : AthenaClient) (event : RunnerEvent)
    (h : truthy event.sql_query = false ∨ truthy event.database = false ∨
         truthy event.output_location = false) :
    (runner_handler client event).2 = [] ∧
    (runner_handler client event).1
      = { statusCode := 500, success := false,
          error := some "Missing required parameters: sql_query, database, output_location",
          query_execution_id := none, results := none } ∧
    ∀ (c2 : AthenaClient) (uuid : String) (q db out : Option String) (wg : String),
      ((execute_query c2 uuid q db out wg).2).head?
        = some (.startQE q db out wg) := by
  have hcond : (truthy event.sql_query && truthy event.database &&
      truthy event.output_location) = false := by
    rcases h with h | h | h <;> simp [h]
  refine ⟨?_, ?_, ?_⟩
  · simp [runner_handler, hcond]
  · simp [runner_handler, hcond]
  · intro c2 uuid q db out wg
    rcases hs : c2.start_query_execution q db out wg with e | eid
    · simp [execute_query, hs]
    · rcases hw : wait_for_query_completion c2 with ⟨ws, wtr⟩
      rcases ws with e | status
      · simp [execute_query, hs, hw]
      · by_cases hsucc : status = "SUCCEEDED"
        · rcases hp : c2.get_query_results_pages with e | pages <;>
            simp [execute_query, hs, hw, hsucc, hp]
        · simp [execute_query, hs, hw, hsucc]

/-- Counterexample to C3 as stated: `AthenaQueryExecutor.execute_query`
invoked with the query text absent still issues the submission request to
the service as its first call — no validation error is raised before the
service is contacted. -/
theorem C3_counterexample :
    ((execute_query running_client "local-uuid" none (some "retail_analytics_db")
        (some "s3://your-athena-results-bucket/query-results/") "primary").2).head?
      = some (.startQE none (some "retail_analytics_db")
          (some "s3://your-athena-results-bucket/query-results/") "primary") := by
  rfl

/-- Witness for C3 (amended) at an event missing `output_location`. -/
theorem C3_validation_witness :
    (runner_handler running_client
        { sql_query := some "SELECT 1", database := some "db", output_location := none,
          workgroup := none }).2 = [] ∧
    (runner_handler running_client
        { sql_query := some "SELECT 1", database := some "db", output_location := none,
          workgroup := none }).1
      = { statusCode := 500, success := false,
          error := some "Missing required parameters: sql_query, database, output_location",
          query_execution_id := none, results := none } := by
  have h := C3_validation running_client
    { sql_query := some "SELECT 1", database := some "db", output_location := none,
      workgroup := none } (Or.inr (Or.inr rfl))
  exact ⟨h.1, h.2.1⟩

lemma poll_loop_error (client : AthenaClient) (e : String) :
    ∀ (k fuel n : Nat), k < fuel →
      (∀ j, j < k → ∃ st, client.get_query_execution (n + j) = .ok st ∧
        terminal_state st.state = false) →
      client.get_query_execution (n + k) = .error e →
      (poll_loop client n fuel).1 = .error e := by
  intro k
  induction k with
  | zero =>
    intro fuel n hk _ herr
    rcases fuel with _ | f
    · omega
    · simp only [Nat.add_zero] at herr
      simp [poll_loop, herr]
  | succ k ih =>
    intro fuel n hk hok herr
    rcases fuel with _ | f
    · omega
    · obtain ⟨st, hok0, hterm⟩ := hok 0 (by omega)
      simp only [Nat.add_zero] at hok0
      have hnext : ∀ j, j < k → ∃ st, client.get_query_execution (n + 1 + j) = .ok st ∧
          terminal_state st.state = false := by
        intro j hj
        obtain ⟨st2, h2, h3⟩ := hok (j + 1) (by omega)
        refine ⟨st2, ?_, h3⟩
        rw [show n + 1 + j = n + (j + 1) by omega]
        exact h2
      have herr2 : client.get_query_execution (n + 1 + k) = .error e := by
        rw [show n + 1 + k = n + (k + 1) by omega]
        exact herr
      have := ih f (n + 1) (by omega) hnext herr2
      simp [poll_loop, hok0, hterm, this]

/-- C10: `AthenaQueryExecutor.execute_query` never propagates an
exception: a failure raised by the submission call, by any poll of the wait
loop, or by result retrieval is caught and returned as a dictionary with
status `'FAILED'` and the exception text in `error`, and in that branch the
returned `execution_id` is the locally generated uuid, not an identifier
issued by the service. -/
theorem C10_execute_query_catches (client : AthenaClient) (uuid : String)
    (q db out : Option String) (wg : String) :
    (∀ e, client.start_query_execution q db out wg = .error e →
      (execute_query client uuid q db out wg).1
        = { execution_id := uuid, status := "FAILED", results := none, error := some e }) ∧
    (∀ e eid, client.start_query_execution q db out wg = .ok eid →
      (wait_for_query_completion client).1 = .error e →
      (execute_query client uuid q db out wg).1.status = "FAILED" ∧
      (execute_query client uuid q db out wg).1.execution_id = uuid ∧
      (execute_query client uuid q db out wg).1.error = some e) ∧
    (∀ e k, k < 60 →
      (∀ j, j < k → ∃ st, client.get_query_execution j = .ok st ∧
        terminal_state st.state = false) →
      client.get_query_execution k = .error e →
      (wait_for_query_completion client).1 = .error e) ∧
    (∀ e eid, client.start_query_execution q db out wg = .ok eid →
      (wait_for_query_completion client).1 = .ok "SUCCEEDED" →
      client.get_query_results_pages = .error e →
      (execute_query client uuid q db out wg).1.status = "FAILED" ∧
      (execute_query client uuid q db out wg).1.execution_id = uuid ∧
      (execute_query client uuid q db out wg).1.error = some e) := by
  refine ⟨?_, ?_, ?_, ?_⟩
  · intro e he
    simp [execute_query, he]
  · intro e eid hs he
    rcases hw : wait_for_query_completion client with ⟨ws, wtr⟩
    rw [hw] at he
    simp at he
    subst he
    simp [execute_query, hs, hw]
  · intro e k hk hok herr
    have h := poll_loop_error client e k 60 0 hk
      (by simpa using hok) (by simpa using herr)
    exact h
  · intro e eid hs hsucc hres
    rcases hw : wait_for_query_completion client with ⟨ws, wtr⟩
    rw [hw] at hsucc
    simp at hsucc
    subst hsucc
    simp [execute_query, hs, hw, hres]

/-- A concrete client whose submission raises. -/
def failing_client : AthenaClient :=
  { start_query_execution := fun _ _ _ _ => .error "AccessDenied"
    get_query_execution := fun _ => .ok { state := "RUNNING", state_change_reason := none }
    get_query_results_pages := .ok [] }

/-- Witness for C10: a raised submission exception comes back as the
FAILED dictionary with the local uuid and the exception text. -/
theorem C10_execute_query_catches_witness :
    (execute_query failing_client "local-uuid" (some "SELECT 1") (some "db")
        (some "s3://out") "primary").1
      = { execution_id := "local-uuid", status := "FAILED", results := none,
          error := some "AccessDenied" } :=
  (C10_execute_query_catches failing_client "local-uuid" (some "SELECT 1") (some "db")
      (some "s3://out") "primary").1 "AccessDenied" rfl

/-- C1 (amended): every record of the batch produced by the end-to-end
`main` pipeline has the essential fields non-null, quantity, unit_price
and total_amount strictly positive, and transaction_timestamp not after
the processing time.  (`main` has no deduplication step, so distinct
output records may share a transaction_id — see the counterexample.) -/
theorem C1_pipeline_invariants (eng : Engine) (now : Int) (xs : List Record) :
    ∀ fr ∈ etl_main eng now xs,
      fr.transaction_id.isSome = true ∧ fr.customer_id.isSome = true ∧
      fr.product_id.isSome = true ∧
      (∃ qv, fr.quantity = some qv ∧ 0 < qv) ∧
      (∃ u, fr.unit_price = some u ∧ 0 < u) ∧
      (∃ a, fr.total_amount = some a ∧ 0 < a) ∧
      (∃ t, fr.transaction_timestamp = some t ∧ t ≤ now) := by
  intro fr hfr
  unfold etl_main at hfr
  obtain ⟨r, hr, rfl⟩ := List.mem_map.mp hfr
  unfold filter_valid_data at hr
  have h3 := List.mem_filter.mp hr
  have h2 := List.mem_filter.mp h3.1
  have h1 := List.mem_filter.mp h2.1
  obtain ⟨⟨⟨⟨⟨⟨hid, hcid⟩, hpid⟩, _⟩, _⟩, _⟩, _⟩ :
      ((((((r.transaction_id.isSome = true ∧ r.customer_id.isSome = true) ∧
        r.product_id.isSome = true) ∧ r.quantity.isSome = true) ∧
        r.unit_price.isSome = true) ∧ r.total_amount.isSome = true) ∧
        r.transaction_timestamp.isSome = true) := by
    simpa [essential_fields_present, Bool.and_eq_true] using h1.2
  obtain ⟨⟨hq, hu⟩, ha⟩ :
      ((gtZero r.quantity = true ∧ gtZero r.unit_price = true) ∧
        gtZero r.total_amount = true) := by
    simpa [positive_amounts, Bool.and_eq_true] using h2.2
  have ht := h3.2
  refine ⟨hid, hcid, hpid, ?_, ?_, ?_, ?_⟩
  · cases hq' : r.quantity with
    | none => rw [hq'] at hq; simp [gtZero] at hq
    | some x =>
      rw [hq'] at hq
      exact ⟨x, by simp [select_final, hq'], by simpa [gtZero] using hq⟩
  · cases hu' : r.unit_price with
    | none => rw [hu'] at hu; simp [gtZero] at hu
    | some x =>
      rw [hu'] at hu
      exact ⟨x, by simp [select_final, hu'], by simpa [gtZero] using hu⟩
  · cases ha' : r.total_amount with
    | none => rw [ha'] at ha; simp [gtZero] at ha
    | some x =>
      rw [ha'] at ha
      exact ⟨x, by simp [select_final, ha'], by simpa [gtZero] using ha⟩
  · unfold not_future at ht
    cases ht' : r.transaction_timestamp with
    | none => rw [ht'] at ht; simp at ht
    | some t =>
      rw [ht'] at ht
      exact ⟨t, by simp [select_final, ht'], by simpa using ht⟩

/-- A concrete engine for running the pipeline on sample batches. -/
def sample_engine : Engine :=
  { parseTs := fun _ => some 100, yearOf := fun _ => 2024, monthOf := fun _ => 5 }

/-- A concrete valid raw record (`product_name` null so only the
canonicalization paths of the cleaning step are exercised). -/
def drec : Record :=
  { transaction_id := some "t1", customer_id := some "c1", product_id := some "p1"
    product_name := none, category := some "ELECTRONICS", quantity := some 2
    unit_price := some 10, total_amount := some 20
    transaction_date := some "2024-05-01 00:00:00"
    store_id := some "s1", sales_rep_id := some "s2", payment_method := some "cash"
    data_quality_score := none, revenue_category := none
    transaction_timestamp := none, year := none, month := none }

/-- Witness for C1 (amended): the surviving record of a concrete batch
satisfies every invariant. -/
theorem C1_pipeline_invariants_witness :
    ∃ fr, fr ∈ etl_main sample_engine 1000 [drec] ∧
      fr.transaction_id.isSome = true ∧
      (∃ a, fr.total_amount = some a ∧ 0 < a) := by
  have hm : etl_main sample_engine 1000 [drec]
      = [select_final (clean_and_standardize sample_engine (data_quality_check drec))] := by
    rfl
  have hmem : select_final (clean_and_standardize sample_engine (data_quality_check drec))
      ∈ etl_main sample_engine 1000 [drec] := by
    rw [hm]
    exact List.mem_singleton.mpr rfl
  have h := C1_pipeline_invariants sample_engine 1000 [drec] _ hmem
  exact ⟨_, hmem, h.1, h.2.2.2.2.2.1⟩

/-- Counterexample to C1 as stated: a batch of two identical valid records
flows through `main` unchanged in cardinality — there is no deduplication
step, so the output holds two records with the same transaction_id. -/
theorem C1_counterexample :
    (etl_main sample_engine 1000 [drec, drec]).map (fun fr => fr.transaction_id)
        = [some "t1", some "t1"] ∧
    ¬ ((etl_main sample_engine 1000 [drec, drec]).Pairwise
        (fun a b => a.transaction_id ≠ b.transaction_id)) := by
  have hmap : (etl_main sample_engine 1000 [drec, drec]).map (fun fr => fr.transaction_id)
      = [some "t1", some "t1"] := by rfl
  refine ⟨hmap, fun h => ?_⟩
  have h2 : ((etl_main sample_engine 1000 [drec, drec]).map
      (fun fr => fr.transaction_id)).Pairwise (fun a b => a ≠ b) :=
    List.pairwise_map.mpr h
  rw [hmap] at h2
  have := List.rel_of_pairwise_cons h2 (List.mem_singleton.mpr rfl)
  exact this rfl
